import Mathlib

/-!
# Verification of the resilient WebSocket connection manager

Shallow embedding of `src/frontend/src/services/WebSocketService.ts`.

The service is single-threaded (browser event loop): each lifecycle
callback and each public method runs to completion before the next one,
so the component is modelled as a family of state-transition functions
`WSState → WSState × trace`.  Effects observable by collaborators
(event emissions to subscribers, socket writes, socket close calls) are
recorded in the trace; each traced effect is paired with the service
state at the instant it is performed, which is the state a synchronous
subscriber callback observes.  `console.*` logging is not modelled.

JavaScript promises are modelled by a settle-once `PromiseState`
together with an identity counter `promiseId` (two promises are the
same object iff they carry the same id).  The fields
`resolveConnectionPromise` / `rejectConnectionPromise` are assigned and
cleared together in every path of the source, so a single Boolean
`handlersSet` represents "the handlers are non-null".

`JSON.parse` of an inbound frame either yields a `{type, payload}`
record or throws; the `onmessage` handler is therefore given an
`Option IncomingMessage` (`none` = the parse threw).  `JSON.stringify`
of an outbound `{command, payload}` record is injective on such
records, so transmission is recorded as the record itself.
-/

namespace WS

/-- `WebSocket.readyState` values (CONNECTING=0, OPEN=1, CLOSING=2, CLOSED=3). -/
inductive ReadyState where
  | CONNECTING
  | OPEN
  | CLOSING
  | CLOSED
deriving DecidableEq, Repr

/-- The lifecycle of one JavaScript promise: pending until settled,
and a settled promise never changes again. -/
inductive PromiseState where
  | pending
  | resolved
  | rejected
deriving DecidableEq, Repr

/-- `resolve()` on a promise: settles a pending promise, no-op otherwise. -/
def settleResolve : PromiseState → PromiseState
  | .pending => .resolved
  | s => s

/-- `reject(e)` on a promise: settles a pending promise, no-op otherwise. -/
def settleReject : PromiseState → PromiseState
  | .pending => .rejected
  | s => s

/-- Primitive JSON values. -/
inductive JsonPrim where
  | null
  | bool (b : Bool)
  | num (n : Int)
  | str (s : String)
deriving DecidableEq, Repr

/-- JSON values, the payloads carried by frames.  No claim inspects a
payload below one level of nesting, so payloads are modelled to that
depth; the router forwards them opaquely either way. -/
inductive Json where
  | prim (p : JsonPrim)
  | arr (elems : List JsonPrim)
  | obj (fields : List (String × JsonPrim))
deriving DecidableEq, Repr

/-- Shorthand for a JSON string value. -/
def Json.str (s : String) : Json := Json.prim (JsonPrim.str s)

/-- An inbound frame after a successful `JSON.parse`
(source interface `IncomingMessage`). -/
structure IncomingMessage where
  type : String
  payload : Json
deriving DecidableEq, Repr

/-- The mutable fields of the `WebSocketService` instance.

`ws` is the owned socket handle together with its current
`readyState` (`none` = the field is `null`).  `promiseId` is the
identity of the promise currently stored in `connectionPromise`
(fresh ids are allocated by incrementing it). -/
structure WSState where
  ws : Option ReadyState
  promiseId : Nat
  connectionPromise : Option PromiseState
  handlersSet : Bool
  reconnectAttempts : Nat
  reconnectTimeoutId : Option ℚ
deriving DecidableEq, Repr

/-- Source field `maxReconnectAttempts = 5`. -/
def maxReconnectAttempts : Nat := 5

/-- Source field `reconnectDelay = 3000` (milliseconds). -/
def reconnectDelay : ℚ := 3000

/-- The backoff delay for a given attempt count:
`Math.min(this.reconnectDelay * Math.pow(1.5, attempts - 1), 30000)`
(line 135 of the source).  Every value this expression can take below
the 30000 cap is exactly representable as an IEEE double, so the
rational computation coincides with the JavaScript one. -/
def delay (attempt : Nat) : ℚ :=
  min (reconnectDelay * (3 / 2) ^ (attempt - 1)) 30000

/-- Effects observable by collaborators of the service. -/
inductive Effect where
  | emitConnected
  | emitDisconnected
  | emitError (message : String)
  | emitSocketError
  | closeSocket (code : Nat) (reason : String)
  | sendFrame (command : String) (payload : Json)
deriving DecidableEq, Repr

/-- An effect paired with the service state at the instant it is
performed (what a synchronous subscriber observes). -/
abbrev TracedEffect := Effect × WSState

/-- The freshly constructed service: `ws = null`,
`connectionPromise = null`, handlers `null`, zero attempts, no timer. -/
def initialState : WSState :=
  { ws := none
    promiseId := 0
    connectionPromise := none
    handlersSet := false
    reconnectAttempts := 0
    reconnectTimeoutId := none }

/-- `isConnected()`: `this.ws !== null && this.ws.readyState === WebSocket.OPEN`. -/
def isConnected (st : WSState) : Bool :=
  st.ws = some ReadyState.OPEN

/-- `scheduleReconnect()` (lines 122-142).  Gives up when the attempt
counter has reached the maximum; is a no-op when a timer is already
outstanding; otherwise increments the counter and stores one timer
carrying the backoff delay for the new attempt count.  It performs no
observable effects (logging only). -/
def scheduleReconnect (st : WSState) : WSState :=
  if maxReconnectAttempts ≤ st.reconnectAttempts then st
  else if st.reconnectTimeoutId.isSome then st
  else
    { st with
      reconnectAttempts := st.reconnectAttempts + 1
      reconnectTimeoutId := some (delay (st.reconnectAttempts + 1)) }

/-- The value `connect()` returns to its caller. -/
inductive ConnectRet where
  /-- The promise object currently stored in `connectionPromise`
  (identified by its id), together with its state at return time. -/
  | currentPromise (id : Nat) (state : PromiseState)
  /-- The `Promise.resolve()` fallback of line 40. -/
  | resolvedNow
deriving DecidableEq, Repr

/-- `connect()` (lines 31-64).  `ctorThrows` is true when
`new WebSocket(WEBSOCKET_URL)` throws synchronously (the catch branch
of lines 54-61).  First clears any pending reconnect timer; returns the
existing promise (or `Promise.resolve()`) when the held socket is OPEN
or CONNECTING; otherwise creates a fresh pending promise with both
handlers set and constructs a new socket.  In the catch branch the
handle is left unchanged, `disconnected` is emitted, the new promise is
rejected (the handlers are not cleared there) and a reconnect is
scheduled. -/
def connect (ctorThrows : Bool) (st : WSState) :
    WSState × List TracedEffect × ConnectRet :=
  let st0 : WSState := { st with reconnectTimeoutId := none }
  match st0.ws with
  | some ReadyState.OPEN =>
      (st0, [],
        match st0.connectionPromise with
        | some ps => ConnectRet.currentPromise st0.promiseId ps
        | none => ConnectRet.resolvedNow)
  | some ReadyState.CONNECTING =>
      (st0, [],
        match st0.connectionPromise with
        | some ps => ConnectRet.currentPromise st0.promiseId ps
        | none => ConnectRet.resolvedNow)
  | _ =>
      let newId := st0.promiseId + 1
      let st1 : WSState :=
        { st0 with
          promiseId := newId
          connectionPromise := some PromiseState.pending
          handlersSet := true }
      if ctorThrows then
        let st2 : WSState :=
          { st1 with connectionPromise := st1.connectionPromise.map settleReject }
        (scheduleReconnect st2, [(Effect.emitDisconnected, st1)],
          ConnectRet.currentPromise newId PromiseState.rejected)
      else
        ({ st1 with ws := some ReadyState.CONNECTING }, [],
          ConnectRet.currentPromise newId PromiseState.pending)

/-- The `onopen` callback (lines 69-79), fired by the transport when a
CONNECTING socket completes its handshake (its `readyState` becomes
OPEN).  Resets the attempt counter, emits `connected`, resolves the
promise when the handlers are set, and clears the handlers
unconditionally. -/
def handleOpen (st : WSState) : WSState × List TracedEffect :=
  let st1 : WSState :=
    { st with ws := some ReadyState.OPEN, reconnectAttempts := 0 }
  let st2 : WSState :=
    { st1 with
      connectionPromise :=
        if st1.handlersSet then st1.connectionPromise.map settleResolve
        else st1.connectionPromise
      handlersSet := false }
  (st2, [(Effect.emitConnected, st1)])

/-- The `onerror` callback (lines 93-102).  Emits the error event;
when the handlers are still set, rejects the promise and clears both
handlers.  The handler code itself does not touch the socket handle. -/
def handleError (st : WSState) : WSState × List TracedEffect :=
  let st2 : WSState :=
    if st.handlersSet then
      { st with
        connectionPromise := st.connectionPromise.map settleReject
        handlersSet := false }
    else st
  (st2, [(Effect.emitSocketError, st)])

/-- The `onclose` callback (lines 104-119) with the close frame's
`code`.  Clears the handle, emits `disconnected` (the handle is
already `null` at that instant), rejects the promise when the handlers
are still set, and schedules a reconnect unless the code is 1000. -/
def handleClose (code : Nat) (st : WSState) : WSState × List TracedEffect :=
  let st1 : WSState := { st with ws := none }
  let tr : List TracedEffect := [(Effect.emitDisconnected, st1)]
  let st2 : WSState :=
    if st1.handlersSet then
      { st1 with
        connectionPromise := st1.connectionPromise.map settleReject
        handlersSet := false }
    else st1
  if code ≠ 1000 then (scheduleReconnect st2, tr) else (st2, tr)

/-- `disconnect(reason)` (lines 183-197).  Clears any pending timer,
pins the attempt counter at the maximum, closes the socket with code
1000 and clears the handle when one is held, and emits `disconnected`
(observed with the handle already cleared).  The function is total:
it returns normally also when no socket is held. -/
def disconnect (reason : String) (st : WSState) :
    WSState × List TracedEffect :=
  let st1 : WSState :=
    { st with
      reconnectTimeoutId := none
      reconnectAttempts := maxReconnectAttempts }
  match st1.ws with
  | some _ =>
      let st2 : WSState := { st1 with ws := none }
      (st2, [(Effect.closeSocket 1000 reason, st1),
             (Effect.emitDisconnected, st2)])
  | none => (st1, [(Effect.emitDisconnected, st1)])

/-! ## The outbound command sender

`sendCommand` (lines 148-181) is an `async` function with a single
suspension point, the `await this.connectionPromise` of line 158.  It
is embedded as three total functions: the synchronous prefix up to the
suspension (`sendCommandStart`), the resumption once the awaited
promise settles (`sendCommandResume`), and the shared tail after the
wait (`sendCommandFinish`).  Between the prefix and the resumption the
event loop may run other callbacks, so the resumption takes the state
current at that later instant.  Every path returns normally: a gate
failure is caught (line 160) and a send failure is caught (line 173),
so the function never throws to its caller. -/

/-- How the synchronous prefix of `sendCommand` proceeds. -/
inductive SendStart where
  /-- `isConnected()` was true: no wait, the tail runs at once. -/
  | immediate
  /-- The caller suspends on the promise stored in `connectionPromise`
  after the prefix; `didConnect` records whether the prefix invoked
  `connect()` (line 155). -/
  | awaited (didConnect : Bool)
deriving DecidableEq, Repr

/-- Lines 148-156: when not connected, `connect()` is invoked iff
`!this.connectionPromise || this.ws?.readyState === WebSocket.CLOSED`
(line 152; with `ws = null` the optional chaining yields `undefined`,
which is not `CLOSED`), and the caller then awaits whatever promise is
stored in `connectionPromise`. -/
def sendCommandStart (ctorThrows : Bool) (st : WSState) :
    WSState × List TracedEffect × SendStart :=
  if isConnected st then (st, [], SendStart.immediate)
  else if st.connectionPromise = none ∨ st.ws = some ReadyState.CLOSED then
    let r := connect ctorThrows st
    (r.1, r.2.1, SendStart.awaited true)
  else (st, [], SendStart.awaited false)

/-- Lines 167-180: the tail after the wait.  Re-checks `isConnected()`;
on success serializes `{command, payload}` and writes it
(`sendThrows` models `this.ws.send` throwing, caught at line 173);
otherwise emits an `error` event and transmits nothing. -/
def sendCommandFinish (sendThrows : Bool) (command : String)
    (payload : Json) (st : WSState) : WSState × List TracedEffect :=
  if isConnected st then
    if sendThrows then
      (st, [(Effect.emitError "Failed to send command via WebSocket.", st)])
    else
      (st, [(Effect.sendFrame command payload, st)])
  else
    (st, [(Effect.emitError "Cannot send command, WebSocket is not connected.", st)])

/-- Lines 157-180: resumption after `await this.connectionPromise`.
`success` is the settled outcome of the awaited promise; `st` is the
service state at resumption time.  A rejection lands in the catch
block of lines 160-164: one `error` event, no transmission, normal
return. -/
def sendCommandResume (success : Bool) (sendThrows : Bool)
    (command : String) (payload : Json) (st : WSState) :
    WSState × List TracedEffect :=
  if success then sendCommandFinish sendThrows command payload st
  else
    (st, [(Effect.emitError "Failed to connect to server to send command.", st)])

/-- The state right after the first `connect()` call on a fresh
service: a CONNECTING socket with a pending promise. -/
def connectingState : WSState := (connect false initialState).1

/-- The state after that attempt's handshake completes: an OPEN socket,
a resolved promise, a zero attempt counter. -/
def openState : WSState := (handleOpen connectingState).1

/-- The service state after a connect / open / server-side close
sequence: the handle is `null` while `connectionPromise` still holds
the (settled, resolved) promise of the finished attempt.  This state
is reached by the program itself, e.g. when the server closes an
established connection with code 1000. -/
def staleClosedState : WSState := (handleClose 1000 openState).1

/-- The state after `disconnect()` on a fresh service: no socket, no
timer, and the attempt counter pinned at the maximum. -/
def exhaustedState : WSState := (disconnect "shutdown" initialState).1

/-! ## The typed event router

`WebSocketService extends Phaser.Events.EventEmitter` (eventemitter3):
`on(event, fn)` appends a listener, and `emit(event, arg)` invokes the
listeners registered for exactly that event name, in registration
order.  Listener functions are identified by a `Nat` id (reference
identity).  An emission is recorded as the list of calls it performs. -/

/-- One registration in the emitter: an event name and the identity of
the registered callback. -/
structure Listener where
  event : String
  fn : Nat
deriving DecidableEq, Repr

/-- The argument passed to a subscriber by the `onmessage` handler:
either the whole parsed frame (the generic `message` emission of line
86) or just the frame's payload (the typed emission of line 87). -/
inductive EmitArg where
  | whole (m : IncomingMessage)
  | payloadOnly (j : Json)
deriving DecidableEq, Repr

/-- One performed subscriber invocation. -/
structure Call where
  fn : Nat
  arg : EmitArg
deriving DecidableEq, Repr

/-- `emit(event, arg)`: every listener currently registered under
`event`, in registration order, is called with `arg`. -/
def emitCalls (reg : List Listener) (event : String) (arg : EmitArg) :
    List Call :=
  (reg.filter fun l => l.event == event).map fun l => { fn := l.fn, arg := arg }

/-- The subscriber invocations the `onmessage` handler performs for
one inbound frame: none when `JSON.parse` threw (the catch of lines
88-90 only logs), otherwise the generic `message` emission with the
whole frame followed by the emission named by the frame's `type` field
with only the payload (lines 86-87). -/
def onmessageCalls (reg : List Listener) (parsed : Option IncomingMessage) :
    List Call :=
  match parsed with
  | none => []
  | some m =>
      emitCalls reg "message" (EmitArg.whole m) ++
        emitCalls reg m.type (EmitArg.payloadOnly m.payload)

/-- The `onmessage` callback (lines 81-91) as a state transition: the
handler body reads no service field other than the emitter registry
and assigns none, so the connection state passes through unchanged. -/
def handleMessage (reg : List Listener) (parsed : Option IncomingMessage)
    (st : WSState) : WSState × List Call :=
  (st, onmessageCalls reg parsed)

/-- `true` iff a call carries only a payload (a typed emission). -/
def Call.isPayloadOnly (c : Call) : Bool :=
  match c.arg with
  | EmitArg.payloadOnly _ => true
  | EmitArg.whole _ => false

/-- A concrete registry: one generic `message` subscriber and two
`description` subscribers. -/
def sampleRegistry : List Listener :=
  [{ event := "message", fn := 1 }, { event := "description", fn := 2 },
   { event := "description", fn := 3 }]

/-- The spec's example frame
`{"type":"description","payload":{"description":"A dark room."}}`. -/
def descriptionFrame : IncomingMessage :=
  { type := "description"
    payload := Json.obj [("description", JsonPrim.str "A dark room.")] }

/-! ## Theorems -/

/-- C6: For every attempt count n ≥ 1, the reconnect delay equals
`min(3000 * 1.5^(n-1), 30000)` milliseconds; as a function of n it is
deterministic (a function), monotonically non-decreasing, and bounded
above by 30000. -/
theorem delay_formula_monotone_bounded (n : Nat) (h : 1 ≤ n) :
    delay n = min (3000 * (3 / 2 : ℚ) ^ (n - 1)) 30000
    ∧ (∀ m, n ≤ m → delay n ≤ delay m)
    ∧ delay n ≤ 30000 := by
  refine ⟨rfl, ?_, min_le_right _ _⟩
  intro m hm
  refine min_le_min ?_ le_rfl
  refine mul_le_mul_of_nonneg_left ?_ (by norm_num [reconnectDelay])
  exact pow_le_pow_right₀ (by norm_num) (Nat.sub_le_sub_right hm 1)

/-- Witness for C6 at n = 4. -/
theorem delay_formula_monotone_bounded_witness :
    delay 4 = min (3000 * (3 / 2 : ℚ) ^ (4 - 1)) 30000
    ∧ (∀ m, 4 ≤ m → delay 4 ≤ delay m)
    ∧ delay 4 ≤ 30000 :=
  delay_formula_monotone_bounded 4 (by norm_num)

/-- C5: `disconnect(reason)` cancels any pending reconnect timer, sets
the attempt counter to the maximum (so `scheduleReconnect` is a no-op
afterwards and no automatic reconnect ever fires), closes a held
socket with normal-closure code 1000, clears the handle (so the state
is not-connected immediately after the call), and emits
`disconnected`; it is a total function, so it also returns normally
when no socket is held. -/
theorem disconnect_contract (st : WSState) (reason : String) :
    (disconnect reason st).1 =
      { st with
        reconnectTimeoutId := none
        reconnectAttempts := maxReconnectAttempts
        ws := none }
    ∧ ((disconnect reason st).2.map Prod.fst =
        if st.ws.isSome then
          [Effect.closeSocket 1000 reason, Effect.emitDisconnected]
        else [Effect.emitDisconnected])
    ∧ isConnected (disconnect reason st).1 = false
    ∧ scheduleReconnect (disconnect reason st).1 = (disconnect reason st).1 := by
  obtain ⟨ws, pid, cp, hs, ra, rt⟩ := st
  cases ws <;>
    simp [disconnect, isConnected, scheduleReconnect, maxReconnectAttempts]

/-- C8: an inbound frame whose text is not valid JSON (`JSON.parse`
threw, the `none` case) produces zero subscriber invocations — neither
`message` nor any typed event — and leaves the connection state
(socket handle, attempt counter, readiness gate) unchanged. -/
theorem onmessage_invalid_frame (st : WSState) (reg : List Listener) :
    handleMessage reg none st = (st, [])
    ∧ (handleMessage reg none st).1.ws = st.ws
    ∧ (handleMessage reg none st).1.reconnectAttempts = st.reconnectAttempts
    ∧ (handleMessage reg none st).1.connectionPromise = st.connectionPromise
    ∧ (handleMessage reg none st).1.reconnectTimeoutId = st.reconnectTimeoutId :=
  ⟨rfl, rfl, rfl, rfl, rfl⟩

/-- C9: on every Connecting-to-Open transition (the `onopen` callback
on a CONNECTING socket with its attempt's gate still pending), the
attempt counter is reset to exactly 0, the readiness gate is resolved
as success, and the `connected` event is emitted. -/
theorem onopen_contract (st : WSState)
    (hws : st.ws = some ReadyState.CONNECTING)
    (hh : st.handlersSet = true)
    (hp : st.connectionPromise = some PromiseState.pending) :
    (handleOpen st).1.reconnectAttempts = 0
    ∧ (handleOpen st).1.connectionPromise = some PromiseState.resolved
    ∧ (handleOpen st).1.ws = some ReadyState.OPEN
    ∧ (handleOpen st).2.map Prod.fst = [Effect.emitConnected] := by
  refine ⟨rfl, ?_, rfl, rfl⟩
  simp [handleOpen, hh, hp, settleResolve]

/-- Witness for C9 at the state produced by the first `connect()`. -/
theorem onopen_contract_witness :
    (handleOpen connectingState).1.reconnectAttempts = 0
    ∧ (handleOpen connectingState).1.connectionPromise =
        some PromiseState.resolved
    ∧ (handleOpen connectingState).1.ws = some ReadyState.OPEN
    ∧ (handleOpen connectingState).2.map Prod.fst = [Effect.emitConnected] :=
  onopen_contract connectingState rfl rfl rfl

/-- C2: `connect()` while the held socket is OPEN returns the
already-resolved stored promise without creating a new socket or a new
promise (the state is unchanged except that a pending reconnect timer
is cancelled), and `connect()` while the held socket is CONNECTING
returns the very promise of the original call — same identity, still
pending — without creating a duplicate socket. -/
theorem connect_idempotent (st : WSState) (ctorThrows : Bool) :
    (st.ws = some ReadyState.OPEN →
      st.connectionPromise = some PromiseState.resolved →
      connect ctorThrows st =
        ({ st with reconnectTimeoutId := none }, [],
          ConnectRet.currentPromise st.promiseId PromiseState.resolved))
    ∧ (st.ws = some ReadyState.CONNECTING →
      st.connectionPromise = some PromiseState.pending →
      connect ctorThrows st =
        ({ st with reconnectTimeoutId := none }, [],
          ConnectRet.currentPromise st.promiseId PromiseState.pending)) := by
  obtain ⟨ws, pid, cp, hs, ra, rt⟩ := st
  constructor <;> rintro rfl rfl <;> rfl

/-- Witness for C2 at the reachable OPEN and CONNECTING states. -/
theorem connect_idempotent_witness :
    connect false openState =
      ({ openState with reconnectTimeoutId := none }, [],
        ConnectRet.currentPromise openState.promiseId PromiseState.resolved)
    ∧ connect false connectingState =
      ({ connectingState with reconnectTimeoutId := none }, [],
        ConnectRet.currentPromise connectingState.promiseId
          PromiseState.pending) :=
  ⟨(connect_idempotent openState false).1 rfl rfl,
   (connect_idempotent connectingState false).2 rfl rfl⟩

/-- C3: the reconnect timer is a single slot.  After a closure with a
code other than 1000 (below the attempt cap, with no timer pending),
exactly one timer is scheduled, carrying the backoff delay for the
incremented attempt count; `scheduleReconnect` while a timer is
pending is a no-op; and `connect()` cancels any pending timer before
starting a new attempt, so at most one timer is ever outstanding. -/
theorem reconnect_timer_discipline (st : WSState) (code : Nat)
    (hcode : code ≠ 1000)
    (hnone : st.reconnectTimeoutId = none)
    (hlt : st.reconnectAttempts < maxReconnectAttempts) :
    ((handleClose code st).1.reconnectTimeoutId =
        some (delay (st.reconnectAttempts + 1))
      ∧ (handleClose code st).1.reconnectAttempts = st.reconnectAttempts + 1)
    ∧ (∀ st2 : WSState, st2.reconnectTimeoutId.isSome →
        scheduleReconnect st2 = st2)
    ∧ (∀ st3 : WSState, (connect false st3).1.reconnectTimeoutId = none) := by
  refine ⟨?_, ?_, ?_⟩
  · have hnle : ¬ maxReconnectAttempts ≤ st.reconnectAttempts :=
      Nat.not_le_of_lt hlt
    by_cases hh : st.handlersSet <;>
      simp [handleClose, scheduleReconnect, hcode, hnone, hh, hnle]
  · intro st2 h2
    simp [scheduleReconnect, h2]
  · intro st3
    obtain ⟨ws, pid, cp, hs, ra, rt⟩ := st3
    cases ws with
    | none => rfl
    | some rs => cases rs <;> rfl

/-- Witness for C3 after a dropped established connection. -/
theorem reconnect_timer_discipline_witness :
    ((handleClose 1006 staleClosedState).1.reconnectTimeoutId =
        some (delay (staleClosedState.reconnectAttempts + 1))
      ∧ (handleClose 1006 staleClosedState).1.reconnectAttempts =
          staleClosedState.reconnectAttempts + 1)
    ∧ (∀ st2 : WSState, st2.reconnectTimeoutId.isSome →
        scheduleReconnect st2 = st2)
    ∧ (∀ st3 : WSState, (connect false st3).1.reconnectTimeoutId = none) :=
  reconnect_timer_discipline staleClosedState 1006 (by decide) rfl (by decide)

/-- C4: once the attempt counter has reached the maximum (5), a
further transport failure — `onclose` with any code — schedules no new
reconnect timer; an explicit `connect()` from the closed state still
proceeds (it creates a fresh socket and a fresh pending gate, so it
may succeed), and if that attempt opens, the counter is back to 0 and
a later failure schedules a timer again: eligibility for automatic
reconnection is restored. -/
theorem max_attempts_stops_auto_reconnect (st : WSState) (code : Nat)
    (hmax : st.reconnectAttempts = maxReconnectAttempts) :
    (handleClose code st).1.reconnectTimeoutId = st.reconnectTimeoutId
    ∧ (st.ws = none →
        (connect false st).1.ws = some ReadyState.CONNECTING
        ∧ (connect false st).1.connectionPromise = some PromiseState.pending
        ∧ (handleOpen (connect false st).1).1.reconnectAttempts = 0
        ∧ (handleClose 1006 (handleOpen (connect false st).1).1).1.reconnectTimeoutId
            = some (delay 1)) := by
  obtain ⟨ws, pid, cp, hs, ra, rt⟩ := st
  simp only at hmax
  subst hmax
  constructor
  · by_cases hc : code = 1000 <;> by_cases hh : hs <;>
      simp [handleClose, scheduleReconnect, hc, hh, maxReconnectAttempts]
  · rintro rfl
    exact ⟨rfl, rfl, rfl, rfl⟩

/-- Witness for C4 at the exhausted state left by `disconnect()`. -/
theorem max_attempts_stops_auto_reconnect_witness :
    (handleClose 1006 exhaustedState).1.reconnectTimeoutId =
        exhaustedState.reconnectTimeoutId
    ∧ (exhaustedState.ws = none →
        (connect false exhaustedState).1.ws = some ReadyState.CONNECTING
        ∧ (connect false exhaustedState).1.connectionPromise =
            some PromiseState.pending
        ∧ (handleOpen (connect false exhaustedState).1).1.reconnectAttempts = 0
        ∧ (handleClose 1006
            (handleOpen (connect false exhaustedState).1).1).1.reconnectTimeoutId
              = some (delay 1)) :=
  max_attempts_stops_auto_reconnect exhaustedState 1006 rfl

/-- C1 (failing input): in the state the program itself reaches after
an established connection closes — handle `null`, `connectionPromise`
still holding the previous attempt's resolved promise — `sendCommand`
finds `isConnected()` false and no attempt in flight, yet the guard
`!this.connectionPromise || this.ws?.readyState === WebSocket.CLOSED`
is false (`this.ws` is `null`, so the optional chaining yields
`undefined`, not `CLOSED`), so no `connect()` is triggered; awaiting
the stale resolved promise succeeds immediately and the tail emits one
`error` event and transmits nothing.  This contradicts both the claim
and the source's own comment "Attempt to connect if not already trying
or if closed" (line 153). -/
theorem sendCommand_stale_promise_never_reconnects :
    isConnected staleClosedState = false
    ∧ staleClosedState.ws = none
    ∧ staleClosedState.connectionPromise = some PromiseState.resolved
    ∧ sendCommandStart false staleClosedState =
        (staleClosedState, [], SendStart.awaited false)
    ∧ sendCommandResume true false "look" (Json.str "") staleClosedState =
        (staleClosedState,
          [(Effect.emitError "Cannot send command, WebSocket is not connected.",
            staleClosedState)]) :=
  ⟨rfl, rfl, rfl, by decide, rfl⟩

/-- C10: whenever `disconnected` is emitted from the `onclose` callback
or from a caller-initiated `disconnect()`, the owned socket handle has
already been cleared to `null`, so `isConnected()` is false in the
state every `disconnected` subscriber observes. -/
theorem disconnected_observed_with_null_handle (st : WSState) (code : Nat)
    (reason : String) :
    (∀ σ : WSState, (Effect.emitDisconnected, σ) ∈ (handleClose code st).2 →
        σ.ws = none ∧ isConnected σ = false)
    ∧ (∀ σ : WSState, (Effect.emitDisconnected, σ) ∈ (disconnect reason st).2 →
        σ.ws = none ∧ isConnected σ = false) := by
  constructor
  · intro σ hmem
    have htr : (handleClose code st).2 =
        [(Effect.emitDisconnected, { st with ws := none })] := by
      simp only [handleClose]
      split <;> rfl
    rw [htr] at hmem
    simp only [List.mem_singleton, Prod.mk.injEq] at hmem
    rw [hmem.2]
    exact ⟨rfl, rfl⟩
  · intro σ hmem
    obtain ⟨ws, pid, cp, hs, ra, rt⟩ := st
    cases ws with
    | none =>
        simp only [disconnect, List.mem_singleton, Prod.mk.injEq] at hmem
        rw [hmem.2]
        exact ⟨rfl, rfl⟩
    | some rs =>
        simp only [disconnect, List.mem_cons, List.mem_singleton,
          List.not_mem_nil, Prod.mk.injEq, reduceCtorEq, false_and, false_or,
          true_and, or_false] at hmem
        rw [hmem]
        exact ⟨rfl, rfl⟩

/-- Witness for C10: the close of an established connection. -/
theorem disconnected_observed_with_null_handle_witness :
    staleClosedState.ws = none ∧ isConnected staleClosedState = false :=
  (disconnected_observed_with_null_handle openState 1001 "x").1
    staleClosedState (by decide)

/-- Unfolding `emit` one registration at a time. -/
theorem emitCalls_cons (l : Listener) (t : List Listener) (e : String)
    (a : EmitArg) :
    emitCalls (l :: t) e a =
      if l.event == e then
        { fn := l.fn, arg := a } :: emitCalls t e a
      else emitCalls t e a := by
  by_cases h : l.event == e <;> simp [emitCalls, List.filter_cons, h]

/-- The calls one emission makes to a given callback id: one per
registration of that id under the emitted event name. -/
theorem emitCalls_filter_fn (reg : List Listener) (e : String) (a : EmitArg)
    (i : Nat) :
    (emitCalls reg e a).filter (fun c => c.fn == i) =
      List.replicate (reg.countP fun l => l.event == e && l.fn == i)
        { fn := i, arg := a } := by
  induction reg with
  | nil => rfl
  | cons l t ih =>
      by_cases he : l.event = e <;> by_cases hf : l.fn = i <;>
        simp [emitCalls_cons, List.filter_cons, List.countP_cons, he, hf, ih,
          List.replicate_succ]

/-- An emission that passes whole frames contributes no payload-only
calls. -/
theorem emitCalls_whole_no_payloadOnly (reg : List Listener) (e : String)
    (m : IncomingMessage) :
    (emitCalls reg e (EmitArg.whole m)).filter Call.isPayloadOnly = [] := by
  induction reg with
  | nil => rfl
  | cons l t ih =>
      by_cases he : l.event = e <;>
        simp [emitCalls_cons, List.filter_cons, he, ih, Call.isPayloadOnly]

/-- The payload-only calls of a payload emission are exactly the
registrations under the emitted event, in registration order. -/
theorem emitCalls_payloadOnly_order (reg : List Listener) (e : String)
    (j : Json) :
    ((emitCalls reg e (EmitArg.payloadOnly j)).filter Call.isPayloadOnly).map
        Call.fn =
      (reg.filter fun l => l.event == e).map Listener.fn := by
  induction reg with
  | nil => rfl
  | cons l t ih =>
      by_cases he : l.event = e <;>
        simp [emitCalls_cons, List.filter_cons, he, ih, Call.isPayloadOnly]

/-- C7 (counterexample): a well-formed frame whose `type` field is the
reserved name "message" makes the router invoke a callback registered
for that type twice for the one frame — once with the whole frame by
the generic emission and once with the payload — not exactly once as
the claim states. -/
theorem onmessage_message_typed_frame_double_call :
    ((onmessageCalls [{ event := "message", fn := 7 }]
        (some { type := "message", payload := Json.str "p" })).filter
        (fun c => c.fn == 7)).length = 2
    ∧ ¬ ((onmessageCalls [{ event := "message", fn := 7 }]
        (some { type := "message", payload := Json.str "p" })).filter
        (fun c => c.fn == 7)).length = 1 := by
  constructor <;> decide

/-- C7 (amended): for every well-formed inbound frame whose `type`
field is not the reserved name "message", the router emits the generic
`message` event with the whole frame followed by the event named by
the frame's type with only the payload; a callback registered exactly
once for the frame's type (and not registered for `message`) is
invoked exactly once, with only the payload; a callback registered
exactly once for `message` (and not for the frame's type) is invoked
exactly once, with the whole frame; and the typed invocations hit the
callbacks registered for that type in registration order. -/
theorem onmessage_routing (reg : List Listener) (m : IncomingMessage)
    (i j : Nat) (ht : m.type ≠ "message") :
    (onmessageCalls reg (some m) =
      emitCalls reg "message" (EmitArg.whole m) ++
        emitCalls reg m.type (EmitArg.payloadOnly m.payload))
    ∧ ((reg.countP fun l => l.event == m.type && l.fn == i) = 1 →
        (reg.countP fun l => l.event == "message" && l.fn == i) = 0 →
        (onmessageCalls reg (some m)).filter (fun c => c.fn == i) =
          [{ fn := i, arg := EmitArg.payloadOnly m.payload }])
    ∧ ((reg.countP fun l => l.event == "message" && l.fn == j) = 1 →
        (reg.countP fun l => l.event == m.type && l.fn == j) = 0 →
        (onmessageCalls reg (some m)).filter (fun c => c.fn == j) =
          [{ fn := j, arg := EmitArg.whole m }])
    ∧ (((onmessageCalls reg (some m)).filter Call.isPayloadOnly).map Call.fn =
        (reg.filter fun l => l.event == m.type).map Listener.fn) := by
  refine ⟨rfl, ?_, ?_, ?_⟩
  · intro h1 h0
    simp [onmessageCalls, List.filter_append, emitCalls_filter_fn, h1, h0]
  · intro h1 h0
    simp [onmessageCalls, List.filter_append, emitCalls_filter_fn, h1, h0]
  · simp [onmessageCalls, List.filter_append, List.map_append,
      emitCalls_whole_no_payloadOnly, emitCalls_payloadOnly_order]

/-- Witness for C7 (amended) on a three-listener registry and the
spec's "description" frame. -/
theorem onmessage_routing_witness :
    (onmessageCalls sampleRegistry (some descriptionFrame) =
      emitCalls sampleRegistry "message" (EmitArg.whole descriptionFrame) ++
        emitCalls sampleRegistry descriptionFrame.type
          (EmitArg.payloadOnly descriptionFrame.payload))
    ∧ ((sampleRegistry.countP
          fun l => l.event == descriptionFrame.type && l.fn == 2) = 1 →
        (sampleRegistry.countP
          fun l => l.event == "message" && l.fn == 2) = 0 →
        (onmessageCalls sampleRegistry (some descriptionFrame)).filter
            (fun c => c.fn == 2) =
          [{ fn := 2,
             arg := EmitArg.payloadOnly descriptionFrame.payload }])
    ∧ ((sampleRegistry.countP
          fun l => l.event == "message" && l.fn == 1) = 1 →
        (sampleRegistry.countP
          fun l => l.event == descriptionFrame.type && l.fn == 1) = 0 →
        (onmessageCalls sampleRegistry (some descriptionFrame)).filter
            (fun c => c.fn == 1) =
          [{ fn := 1, arg := EmitArg.whole descriptionFrame }])
    ∧ (((onmessageCalls sampleRegistry (some descriptionFrame)).filter
          Call.isPayloadOnly).map Call.fn =
        (sampleRegistry.filter
          fun l => l.event == descriptionFrame.type).map Listener.fn) :=
  onmessage_routing sampleRegistry descriptionFrame 2 1 (by decide)

end WS
